import Mathlib

/-!
Shallow embedding of `api/movies.js`: a single HTTP GET endpoint that turns
request query parameters into a parameterized SQL count query and data query
over a `movies` table, and shapes the rows into a paginated JSON envelope.

JavaScript primitives used by the handler (`parseInt`, `trim`,
`toLowerCase`, string truthiness, `x || d`, `Math.ceil` on an exact
quotient) are embedded explicitly below; the handler logic itself is a
direct transcription of the source.
-/

namespace MoviesApi

/-- ASCII whitespace recognized by the JavaScript regex class `\s` and by
`String.prototype.trim` (restricted to the ASCII range, which is all the
handler's own string constants use). -/
def isJsSpace (c : Char) : Bool :=
  c == ' ' || c == '\t' || c == '\n' || c == '\r' || c == '\x0b' || c == '\x0c'

/-- JavaScript `String.prototype.trim`: drop leading and trailing whitespace. -/
def jsTrim (s : String) : String :=
  ⟨((s.data.dropWhile isJsSpace).reverse.dropWhile isJsSpace).reverse⟩

/-- JavaScript `String.prototype.toLowerCase`, restricted to the basic latin
range that `Char.toLower` handles (the only case-mapping the handler's own
constants exercise). -/
def jsToLower (s : String) : String :=
  ⟨s.data.map Char.toLower⟩

/-- The character class of the JavaScript regex `[._\s-]`: the separators
removed by the search-text normalizer. -/
def isSepChar (c : Char) : Bool :=
  c == '.' || c == '_' || isJsSpace c || c == '-'

/-- Numeric value of a digit string (used by `parseInt` on an all-digit input). -/
def digitsVal (l : List Char) : Nat :=
  l.foldl (fun a c => a * 10 + (c.toNat - 48)) 0

/-- JavaScript `parseInt(s, 10)`: skip leading whitespace, read an optional
sign and then the longest prefix of decimal digits; `none` models `NaN`
(no digits found). -/
def jsParseInt (s : String) : Option Int :=
  let l := s.data.dropWhile isJsSpace
  match l with
  | '-' :: rest =>
      let d := rest.takeWhile Char.isDigit
      if d.isEmpty then none else some (-(digitsVal d : Int))
  | '+' :: rest =>
      let d := rest.takeWhile Char.isDigit
      if d.isEmpty then none else some ((digitsVal d : Int))
  | _ =>
      let d := l.takeWhile Char.isDigit
      if d.isEmpty then none else some ((digitsVal d : Int))

/-- JavaScript `v || d` applied to the result of `parseInt`: `NaN` (here
`none`) and `0` are falsy and yield the default `d`. -/
def jsOr (v : Option Int) (d : Int) : Int :=
  match v with
  | none => d
  | some n => if n = 0 then d else n

/-- JavaScript string truthiness of an optional query parameter: `undefined`
and the empty string are falsy. -/
def truthy : Option String → Bool
  | none => false
  | some s => !(s == "")

/-- `Math.ceil(a / b)` for integers with `b > 0` (the only divisor the
handler uses is the clamped limit, which is at least 1). -/
def jsCeilDiv (a b : Int) : Int :=
  Int.ediv (a + b - 1) b

/-- The properties the sort-key mapping object literal inherits from
`Object.prototype`. A bracket lookup `mapping[key]` consults the own
properties first and then the prototype chain, so keys such as "toString"
or "constructor" return the inherited truthy member rather than
`undefined`, defeating the `|| default`. The value recorded for each name
is the string the member coerces to when interpolated into the ORDER BY
template literal (Node/V8 formatting); the source's only other use of the
looked-up value is the comparison with "size_bytes", which is false for
every inherited member in both the source and this model. -/
def objectProtoProps : List (String × String) :=
  [("constructor", "function Object() \x7b [native code] \x7d"),
   ("hasOwnProperty", "function hasOwnProperty() \x7b [native code] \x7d"),
   ("isPrototypeOf", "function isPrototypeOf() \x7b [native code] \x7d"),
   ("propertyIsEnumerable", "function propertyIsEnumerable() \x7b [native code] \x7d"),
   ("toLocaleString", "function toLocaleString() \x7b [native code] \x7d"),
   ("toString", "function toString() \x7b [native code] \x7d"),
   ("valueOf", "function valueOf() \x7b [native code] \x7d"),
   ("__defineGetter__", "function __defineGetter__() \x7b [native code] \x7d"),
   ("__defineSetter__", "function __defineSetter__() \x7b [native code] \x7d"),
   ("__lookupGetter__", "function __lookupGetter__() \x7b [native code] \x7d"),
   ("__lookupSetter__", "function __lookupSetter__() \x7b [native code] \x7d"),
   ("__proto__", "[object Object]")]

/-- `mapSortColumn` from the source: `mapping[key] || 'last_updated_ts'`
on an object literal. The five own keys map to column names; any other key
that names an `Object.prototype` property returns that inherited truthy
member (which reaches the SQL text in stringified form), and only keys
found neither on the literal nor on its prototype fall back to
`last_updated_ts`. -/
def mapSortColumn (key : String) : String :=
  if key = "id" then "original_id"
  else if key = "filename" then "lower(filename)"
  else if key = "size" then "size_bytes"
  else if key = "quality" then "quality"
  else if key = "lastUpdated" then "last_updated_ts"
  else
    match objectProtoProps.lookup key with
    | some v => v
    | none => "last_updated_ts"

/-- `normalizeSearchTextForComparison` from the source: lower-case, remove
every run of `.`, `_`, `-` and whitespace (the regex
`replace(/[._\s-]+/g, "")`), then trim; falsy input yields `""`. -/
def normalizeSearchTextForComparison (text : String) : String :=
  if text = "" then ""
  else jsTrim ⟨((jsToLower text).data).filter (fun c => !isSepChar c)⟩

/-- `sortDir?.toLowerCase() === "asc" ? "ASC" : "DESC"` from the source. -/
def sortDirection (sortDir : String) : String :=
  if jsToLower sortDir = "asc" then "ASC" else "DESC"

/-- The request's query parameters as destructured by the handler;
`none` models an absent (`undefined`) parameter. -/
structure Req where
  search : Option String := none
  quality : Option String := none
  type : Option String := none
  sort : Option String := none
  sortDir : Option String := none
  page : Option String := none
  limit : Option String := none
  id : Option String := none
deriving DecidableEq, Repr

/-- `Math.max(1, parseInt(page, 10) || 1)`; an absent `page` defaults to the
number `1`, which `parseInt` reads back as `1`. -/
def currentPage (page : Option String) : Int :=
  max 1 (jsOr (jsParseInt (page.getD "1")) 1)

/-- `Math.max(1, Math.min(100, parseInt(limit, 10) || 50))`; an absent
`limit` defaults to the number `50`. -/
def currentLimit (limit : Option String) : Int :=
  max 1 (min 100 (jsOr (jsParseInt (limit.getD "50")) 50))

/-- `offset = (currentPage - 1) * currentLimit`. -/
def offsetOf (r : Req) : Int :=
  (currentPage r.page - 1) * currentLimit r.limit

/-- A value pushed onto `queryParams`: the handler pushes strings (`id`,
the ILIKE pattern, `quality`) and numbers (the parsed numeric search term,
limit, offset). -/
inductive SqlParam where
  | int (n : Int)
  | str (s : String)
deriving DecidableEq, Repr

/-- The in-database normalization expression applied to `filename`, matching
the JS template literal (after JS escape processing). -/
def normalizedDbFilename : String :=
  "regexp_replace(lower(filename), \x27[._\\s-]+\x27, \x27\x27, \x27g\x27)"

/-- The search-derived part of the filter (source lines 95-126): given the
raw `search` value and the next placeholder index, return the appended SQL
fragment, the pushed parameters and the next free placeholder index. -/
def searchClause (search : String) (paramIndex : Nat) : String × List SqlParam × Nat :=
  let searchTerm := jsTrim search
  let isNumericSearch := !(searchTerm == "") && searchTerm.data.all Char.isDigit
  if isNumericSearch && decide (searchTerm.length < 10) then
    let normalizedSearchTerm := normalizeSearchTextForComparison searchTerm
    (" AND (original_id = $" ++ toString paramIndex ++ " OR " ++ normalizedDbFilename
        ++ " ILIKE $" ++ toString (paramIndex + 1) ++ ")",
     [SqlParam.int ((jsParseInt searchTerm).getD 0),
      SqlParam.str ("%" ++ normalizedSearchTerm ++ "%")],
     paramIndex + 2)
  else
    let normalizedSearchTerm := normalizeSearchTextForComparison searchTerm
    if normalizedSearchTerm = "" then ("", [], paramIndex)
    else
      (" AND " ++ normalizedDbFilename ++ " ILIKE $" ++ toString paramIndex,
       [SqlParam.str ("%" ++ normalizedSearchTerm ++ "%")],
       paramIndex + 1)

/-- The filtering logic (source lines 85-143): the `FROM ... WHERE` text,
the parameter list, and the next free placeholder index. When `id` is
truthy the filter is the single id equality and everything else is skipped;
otherwise the search, quality and type predicates are appended in order. -/
def buildFilter (r : Req) : String × List SqlParam × Nat :=
  let base := "FROM movies WHERE 1=1"
  if truthy r.id then
    (base ++ " AND original_id = $1", [SqlParam.str (r.id.getD "")], 2)
  else
    let s :=
      if truthy r.search then searchClause (r.search.getD "") 1 else ("", [], 1)
    let q :=
      if truthy r.quality then
        (" AND quality = $" ++ toString s.2.2, [SqlParam.str (r.quality.getD "")], s.2.2 + 1)
      else ("", [], s.2.2)
    let t :=
      if r.type = some "movies" then " AND is_series = FALSE"
      else if r.type = some "series" then " AND is_series = TRUE"
      else ""
    (base ++ s.1 ++ q.1 ++ t, s.2.1 ++ q.2.1, q.2.2)

/-- `SELECT COUNT(*) ${baseQuery}` (issued only when `id` is falsy). -/
def buildCountSql (r : Req) : String × List SqlParam :=
  ("SELECT COUNT(*) " ++ (buildFilter r).1, (buildFilter r).2.1)

/-- The ORDER BY clause template from source line 183, including its exact
spacing: `NULLS LAST` appears exactly when the sort column is `size_bytes`,
and `original_id` is the tiebreak in the same direction. -/
def orderByClause (sortColumn dir : String) : String :=
  "ORDER BY " ++ sortColumn ++ " " ++ dir ++ " "
    ++ (if sortColumn = "size_bytes" then "NULLS LAST" else "")
    ++ ", original_id " ++ dir

/-- The data query (source lines 179-189): for a non-id request, ORDER BY
plus parameterized LIMIT/OFFSET; for an id request, a bare `LIMIT 1`. -/
def buildDataSql (r : Req) : String × List SqlParam :=
  let f := buildFilter r
  if truthy r.id then
    ("SELECT * " ++ f.1 ++ " LIMIT 1", f.2.1)
  else
    let sortColumn := mapSortColumn (r.sort.getD "lastUpdated")
    let dir := sortDirection (r.sortDir.getD "desc")
    ("SELECT * " ++ f.1 ++ " " ++ orderByClause sortColumn dir
       ++ " LIMIT $" ++ toString f.2.2 ++ " OFFSET $" ++ toString (f.2.2 + 1),
     f.2.1 ++ [SqlParam.int (currentLimit r.limit), SqlParam.int (offsetOf r)])

/-- The JSON envelope of a 200 response: items, pagination numbers, the raw
filter echoes (`filters: { search, quality, type }`, without defaults) and
the sorting echoes (`sorting: { sort, sortDir }`, with destructuring
defaults applied). `ρ` is the type of rows returned by the store. -/
structure Envelope (ρ : Type) where
  items : List ρ
  totalItems : Int
  page : Int
  totalPages : Int
  limit : Int
  filtersSearch : Option String
  filtersQuality : Option String
  filtersType : Option String
  sortingSort : String
  sortingSortDir : String
deriving DecidableEq, Repr

/-- Outcome of the query-execution phase: which of the two queries were
issued, and the envelope sent with status 200. -/
structure HandlerRun (ρ : Type) where
  countIssued : Bool
  dataIssued : Bool
  env : Envelope ρ
deriving DecidableEq, Repr

/-- The execution and response phase (source lines 145-209), with the
external store abstracted: `countVal` is the integer the count query would
report (read only when that query is issued) and `rows` is the row list the
data query would return (read only when that query is issued). -/
def runHandler {ρ : Type} (r : Req) (countVal : Int) (rows : List ρ) : HandlerRun ρ :=
  let totalItems : Int := if truthy r.id then 1 else countVal
  if truthy r.id = false ∧ offsetOf r ≥ totalItems ∧ totalItems > 0 then
    { countIssued := true, dataIssued := false,
      env := { items := [], totalItems := totalItems, page := currentPage r.page,
               totalPages := jsCeilDiv totalItems (currentLimit r.limit),
               limit := currentLimit r.limit,
               filtersSearch := r.search, filtersQuality := r.quality,
               filtersType := r.type,
               sortingSort := r.sort.getD "lastUpdated",
               sortingSortDir := r.sortDir.getD "desc" } }
  else
    { countIssued := !truthy r.id, dataIssued := true,
      env := { items := rows, totalItems := totalItems, page := currentPage r.page,
               totalPages := if truthy r.id then 1
                             else jsCeilDiv totalItems (currentLimit r.limit),
               limit := currentLimit r.limit,
               filtersSearch := r.search, filtersQuality := r.quality,
               filtersType := r.type,
               sortingSort := r.sort.getD "lastUpdated",
               sortingSortDir := r.sortDir.getD "desc" } }

/-! ### Request shape: what the SQL text may depend on

The injection-safety property is phrased as a factorization: the SQL text
of both queries is a function of the request's *shape* — which branches of
the predicate builder fire, plus the whitelisted sort column and direction
— while the user-supplied parameter values travel only in the parameter
list. -/

/-- Which search branch fires. -/
inductive SearchShape where
  | absent
  | dualIntent
  | textSearch
  | separatorsOnly
deriving DecidableEq, Repr

/-- Which type filter fires. -/
inductive TypeShape where
  | movies
  | series
  | other
deriving DecidableEq, Repr

/-- The branch structure of a request, plus the resolved (whitelisted) sort
column and direction. No raw parameter value occurs in a shape. -/
structure ReqShape where
  idLookup : Bool
  searchShape : SearchShape
  hasQuality : Bool
  typeShape : TypeShape
  sortColumn : String
  dir : String
deriving DecidableEq, Repr

/-- Which search branch a truthy search value takes. -/
def searchShapeOfVal (s : String) : SearchShape :=
  let t := jsTrim s
  if (!(t == "") && t.data.all Char.isDigit) && decide (t.length < 10) then
    SearchShape.dualIntent
  else if normalizeSearchTextForComparison t = "" then SearchShape.separatorsOnly
  else SearchShape.textSearch

/-- The shape of a request. -/
def shapeOf (r : Req) : ReqShape where
  idLookup := truthy r.id
  searchShape :=
    if truthy r.search then searchShapeOfVal (r.search.getD "")
    else SearchShape.absent
  hasQuality := truthy r.quality
  typeShape :=
    if r.type = some "movies" then TypeShape.movies
    else if r.type = some "series" then TypeShape.series
    else TypeShape.other
  sortColumn := mapSortColumn (r.sort.getD "lastUpdated")
  dir := sortDirection (r.sortDir.getD "desc")

/-- SQL fragment of the search branch as a function of the shape alone. -/
def searchFragOfShape : SearchShape → Nat → String × Nat
  | SearchShape.dualIntent, i =>
      (" AND (original_id = $" ++ toString i ++ " OR " ++ normalizedDbFilename
        ++ " ILIKE $" ++ toString (i + 1) ++ ")", i + 2)
  | SearchShape.textSearch, i =>
      (" AND " ++ normalizedDbFilename ++ " ILIKE $" ++ toString i, i + 1)
  | _, i => ("", i)

/-- The filter text and next placeholder index as a function of the shape
alone. -/
def filterTextOfShape (sh : ReqShape) : String × Nat :=
  if sh.idLookup then ("FROM movies WHERE 1=1 AND original_id = $1", 2)
  else
    let s := searchFragOfShape sh.searchShape 1
    let q := if sh.hasQuality then (" AND quality = $" ++ toString s.2, s.2 + 1)
             else ("", s.2)
    let t := match sh.typeShape with
      | TypeShape.movies => " AND is_series = FALSE"
      | TypeShape.series => " AND is_series = TRUE"
      | TypeShape.other => ""
    ("FROM movies WHERE 1=1" ++ s.1 ++ q.1 ++ t, q.2)

/-- The data-query text as a function of the shape alone. -/
def dataTextOfShape (sh : ReqShape) : String :=
  let f := filterTextOfShape sh
  if sh.idLookup then "SELECT * " ++ f.1 ++ " LIMIT 1"
  else
    "SELECT * " ++ f.1 ++ " " ++ orderByClause sh.sortColumn sh.dir
      ++ " LIMIT $" ++ toString f.2 ++ " OFFSET $" ++ toString (f.2 + 1)

/-! ### Character-level helper lemmas -/

theorem toNat_ofNat_lt (m : Nat) (h : m < 55296) : (Char.ofNat m).toNat = m := by
  unfold Char.ofNat
  rw [dif_pos (Or.inl h)]
  rfl

theorem toLower_toNat (c : Char) :
    (Char.toLower c).toNat = if 65 ≤ c.toNat ∧ c.toNat ≤ 90 then c.toNat + 32 else c.toNat := by
  unfold Char.toLower
  split
  · next h => rw [if_pos h]; exact toNat_ofNat_lt _ (by omega)
  · next h => rw [if_neg h]

theorem char_eq_iff_toNat (c d : Char) : c = d ↔ c.toNat = d.toNat := by
  constructor
  · intro h; rw [h]
  · intro h; exact Char.eq_of_val_eq (UInt32.ext h)

theorem toLower_idem (c : Char) : Char.toLower (Char.toLower c) = Char.toLower c := by
  have h1 := toLower_toNat c
  have h2 := toLower_toNat (Char.toLower c)
  rw [char_eq_iff_toNat, h2, h1]
  split_ifs <;> omega

theorem isJsSpace_of_isSepChar (c : Char) (h : isSepChar c = false) : isJsSpace c = false := by
  unfold isSepChar at h
  rcases Bool.or_eq_false_iff.mp h with ⟨h1, -⟩
  exact (Bool.or_eq_false_iff.mp h1).2

/-! ### List-level helper lemmas -/

theorem dropWhile_eq_self_of {α : Type} (p : α → Bool) (l : List α)
    (h : ∀ c ∈ l, p c = false) : l.dropWhile p = l := by
  cases l with
  | nil => rfl
  | cons a t => simp [List.dropWhile_cons, h a (List.mem_cons_self a t)]

theorem map_eq_self_of {α : Type} (f : α → α) (l : List α)
    (h : ∀ c ∈ l, f c = c) : l.map f = l := by
  induction l with
  | nil => rfl
  | cons a t ih =>
      simp only [List.map_cons, h a (List.mem_cons_self a t)]
      rw [ih (fun c hc => h c (List.mem_cons_of_mem a hc))]

theorem mem_of_mem_trimmed {α : Type} (p : α → Bool) (l : List α) (c : α)
    (h : c ∈ ((l.dropWhile p).reverse.dropWhile p).reverse) : c ∈ l := by
  rw [List.mem_reverse] at h
  have h2 := (List.dropWhile_sublist (l := (l.dropWhile p).reverse) p).mem h
  rw [List.mem_reverse] at h2
  exact (List.dropWhile_sublist (l := l) p).mem h2

/-! ### Facts about the search-text normalizer -/

theorem jsTrim_eq_self_of (s : String) (h : ∀ c ∈ s.data, isJsSpace c = false) :
    jsTrim s = s := by
  unfold jsTrim
  rw [dropWhile_eq_self_of isJsSpace s.data h]
  rw [dropWhile_eq_self_of isJsSpace s.data.reverse
    (fun c hc => h c (List.mem_reverse.mp hc))]
  rw [List.reverse_reverse]

theorem mem_normalize_good (t : String) (c : Char)
    (h : c ∈ (normalizeSearchTextForComparison t).data) :
    Char.toLower c = c ∧ isSepChar c = false := by
  unfold normalizeSearchTextForComparison at h
  split at h
  · simp at h
  · have h1 : c ∈ ((jsToLower t).data).filter (fun c => !isSepChar c) :=
      mem_of_mem_trimmed isJsSpace _ c h
    rw [List.mem_filter] at h1
    obtain ⟨hmem, hkeep⟩ := h1
    unfold jsToLower at hmem
    simp only [List.mem_map] at hmem
    obtain ⟨c0, -, rfl⟩ := hmem
    exact ⟨toLower_idem c0, by simpa using hkeep⟩

theorem normalize_eq_self_of_good (s : String)
    (h : ∀ c ∈ s.data, Char.toLower c = c ∧ isSepChar c = false) :
    normalizeSearchTextForComparison s = s := by
  by_cases h0 : s = ""
  · rw [h0]; decide
  · unfold normalizeSearchTextForComparison
    rw [if_neg h0]
    unfold jsToLower
    rw [map_eq_self_of Char.toLower _ (fun c hc => (h c hc).1)]
    rw [List.filter_eq_self.mpr (fun c hc => by rw [(h c hc).2]; rfl)]
    exact jsTrim_eq_self_of _
      (fun c hc => isJsSpace_of_isSepChar c (h c hc).2)

/-- C2: the search-text normalizer is idempotent, and it maps
"The.Movie_2020", "the movie 2020" and "THE-MOVIE 2020" all to
"themovie2020"; the empty input yields the empty string. -/
theorem normalize_idempotent_and_examples :
    (∀ t : String,
      normalizeSearchTextForComparison (normalizeSearchTextForComparison t)
        = normalizeSearchTextForComparison t)
    ∧ normalizeSearchTextForComparison "The.Movie_2020" = "themovie2020"
    ∧ normalizeSearchTextForComparison "the movie 2020" = "themovie2020"
    ∧ normalizeSearchTextForComparison "THE-MOVIE 2020" = "themovie2020"
    ∧ normalizeSearchTextForComparison "" = "" := by
  refine ⟨?_, by decide, by decide, by decide, by decide⟩
  intro t
  exact normalize_eq_self_of_good _ (mem_normalize_good t)

/-! ### Digit strings are fixed by the normalizer -/

theorem beq_eq_false_of_toNat_ne (c d : Char) (h : c.toNat ≠ d.toNat) : (c == d) = false := by
  apply beq_eq_false_iff_ne.mpr
  intro he
  exact h (by rw [he])

theorem isDigit_toNat (c : Char) (h : c.isDigit = true) : 48 ≤ c.toNat ∧ c.toNat ≤ 57 := by
  simp [Char.isDigit] at h
  exact ⟨h.1, h.2⟩

theorem toLower_eq_self_of_lt (c : Char) (h : c.toNat < 65) : Char.toLower c = c := by
  rw [char_eq_iff_toNat, toLower_toNat, if_neg (by omega)]

theorem isSepChar_eq_false_of_digit (c : Char) (h48 : 48 ≤ c.toNat) (h57 : c.toNat ≤ 57) :
    isSepChar c = false := by
  unfold isSepChar isJsSpace
  rw [beq_eq_false_of_toNat_ne c '.' (by rw [show ('.' : Char).toNat = 46 from rfl]; omega)]
  rw [beq_eq_false_of_toNat_ne c '_' (by rw [show ('_' : Char).toNat = 95 from rfl]; omega)]
  rw [beq_eq_false_of_toNat_ne c '-' (by rw [show ('-' : Char).toNat = 45 from rfl]; omega)]
  rw [beq_eq_false_of_toNat_ne c ' ' (by rw [show (' ' : Char).toNat = 32 from rfl]; omega)]
  rw [beq_eq_false_of_toNat_ne c '\t' (by rw [show ('\t' : Char).toNat = 9 from rfl]; omega)]
  rw [beq_eq_false_of_toNat_ne c '\n' (by rw [show ('\n' : Char).toNat = 10 from rfl]; omega)]
  rw [beq_eq_false_of_toNat_ne c '\r' (by rw [show ('\r' : Char).toNat = 13 from rfl]; omega)]
  rw [beq_eq_false_of_toNat_ne c '\x0b'
    (by rw [show ('\x0b' : Char).toNat = 11 from rfl]; omega)]
  rw [beq_eq_false_of_toNat_ne c '\x0c'
    (by rw [show ('\x0c' : Char).toNat = 12 from rfl]; omega)]
  rfl

theorem normalize_eq_self_of_digits (t : String) (h : t.data.all Char.isDigit = true) :
    normalizeSearchTextForComparison t = t := by
  apply normalize_eq_self_of_good
  intro c hc
  have hd := isDigit_toNat c (List.all_eq_true.mp h c hc)
  exact ⟨toLower_eq_self_of_lt c (by omega), isSepChar_eq_false_of_digit c hd.1 hd.2⟩

/-- C1: for a truthy search whose trimmed form is all digits, the search
predicate is the dual-intent OR group (exact id match on the parsed value,
or ILIKE on the normalized filename) when the trimmed length is below 10,
and the plain normalized-substring predicate with no id alternative when
the length is 10 or more; and for a request without id, quality and type,
the whole filter is the base clause plus exactly this fragment. -/
theorem search_predicate_numeric_heuristic (s : String)
    (hne : jsTrim s ≠ "") (hdig : (jsTrim s).data.all Char.isDigit = true) :
    ((jsTrim s).length < 10 →
      searchClause s 1 =
        (" AND (original_id = $1 OR " ++ normalizedDbFilename ++ " ILIKE $2)",
         [SqlParam.int ((jsParseInt (jsTrim s)).getD 0),
          SqlParam.str ("%" ++ normalizeSearchTextForComparison (jsTrim s) ++ "%")], 3))
    ∧ (10 ≤ (jsTrim s).length →
      searchClause s 1 =
        (" AND " ++ normalizedDbFilename ++ " ILIKE $1",
         [SqlParam.str ("%" ++ normalizeSearchTextForComparison (jsTrim s) ++ "%")], 2))
    ∧ (∀ r : Req, r.id = none → r.quality = none → r.type = none → r.search = some s →
        buildFilter r = ("FROM movies WHERE 1=1" ++ (searchClause s 1).1,
                         (searchClause s 1).2.1, (searchClause s 1).2.2)) := by
  have hb : (jsTrim s == "") = false := beq_eq_false_iff_ne.mpr hne
  refine ⟨?_, ?_, ?_⟩
  · intro hlt
    simp only [searchClause, hb, hdig, Bool.not_false, Bool.true_and,
      decide_eq_true hlt, Bool.and_true, if_true]
    simp only [Prod.mk.injEq]
    trivial
  · intro hge
    have hlt : decide ((jsTrim s).length < 10) = false := by
      simp [Nat.not_lt.mpr hge]
    simp only [searchClause, hb, hdig, Bool.not_false, Bool.true_and,
      hlt, Bool.and_false, if_false]
    rw [normalize_eq_self_of_digits (jsTrim s) hdig]
    rw [if_neg hne]
    rw [if_neg (by simp)]
    simp only [Prod.mk.injEq]
    trivial
  · intro r hid hq hty hsearch
    have hs : s ≠ "" := by
      intro h
      apply hne
      rw [h]
      decide
    have hts : truthy r.search = true := by
      rw [hsearch]
      simp [truthy, hs]
    simp only [buildFilter, hid, hq, hty, truthy, hts, hsearch, Option.getD_some,
      if_true, if_false]
    simp [hs]

theorem search_predicate_numeric_witness :
    searchClause "123" 1 =
      (" AND (original_id = $1 OR " ++ normalizedDbFilename ++ " ILIKE $2)",
       [SqlParam.int 123, SqlParam.str "%123%"], 3)
    ∧ searchClause "1234567890" 1 =
      (" AND " ++ normalizedDbFilename ++ " ILIKE $1",
       [SqlParam.str "%1234567890%"], 2) := by
  constructor
  · rw [(search_predicate_numeric_heuristic "123" (by decide) (by decide)).1 (by decide)]
    decide
  · rw [(search_predicate_numeric_heuristic "1234567890" (by decide) (by decide)).2.1
      (by decide)]
    decide

/-- C3: when `id` is present (truthy), the filter is exactly the single
equality `original_id = $1` with the id as its only bound parameter, and
the data query carries no search, quality or type predicate even when those
parameters are supplied. -/
theorem id_lookup_filter (r : Req) (i : String) (hid : r.id = some i) (hne : i ≠ "") :
    buildFilter r = ("FROM movies WHERE 1=1 AND original_id = $1", [SqlParam.str i], 2)
    ∧ (buildDataSql r).1 = "SELECT * FROM movies WHERE 1=1 AND original_id = $1 LIMIT 1" := by
  have hti : truthy (some i) = true := by simp [truthy, hne]
  constructor
  · simp [buildFilter, hid, hti]
  · simp [buildDataSql, buildFilter, hid, hti]

theorem id_lookup_filter_witness :
    buildFilter
        { id := some "42", search := some "abc", quality := some "1080p",
          type := some "series" }
      = ("FROM movies WHERE 1=1 AND original_id = $1", [SqlParam.str "42"], 2) :=
  (id_lookup_filter _ "42" rfl (by decide)).1

/-- C4 counterexample: `limit = "0"` parses successfully to `0`, which is
less than 1, yet the effective limit is 50 rather than the claimed clamp
value 1, because `0` is falsy for the JavaScript `||` default. -/
theorem limit_zero_counterexample :
    jsParseInt "0" = some 0 ∧ currentLimit (some "0") = 50 := by decide

/-- C4 (amended): the effective limit parses the parameter as an integer,
uses 50 when parsing fails or yields 0 (both falsy), and otherwise clamps
to [1, 100]; in particular every nonzero parsed value below 1 yields 1 and
every parsed value above 100 yields 100. -/
theorem limit_effective_amended :
    (currentLimit none = 50)
    ∧ (∀ l, jsParseInt l = none → currentLimit (some l) = 50)
    ∧ (∀ l, jsParseInt l = some 0 → currentLimit (some l) = 50)
    ∧ (∀ l n, jsParseInt l = some n → n ≠ 0 → currentLimit (some l) = max 1 (min 100 n))
    ∧ (∀ l n, jsParseInt l = some n → n ≠ 0 → n < 1 → currentLimit (some l) = 1)
    ∧ (∀ l n, jsParseInt l = some n → 100 < n → currentLimit (some l) = 100) := by
  refine ⟨by decide, ?_, ?_, ?_, ?_, ?_⟩
  · intro l h
    simp [currentLimit, jsOr, h]
  · intro l h
    simp [currentLimit, jsOr, h]
  · intro l n h hn
    simp [currentLimit, jsOr, h, hn]
  · intro l n h hn hlt
    simp only [currentLimit, jsOr, Option.getD_some, h, if_neg hn]
    omega
  · intro l n h hlt
    have hn : n ≠ 0 := by omega
    simp only [currentLimit, jsOr, Option.getD_some, h, if_neg hn]
    omega

theorem limit_effective_witness :
    currentLimit (some "abc") = 50 ∧ currentLimit (some "200") = 100
    ∧ currentLimit (some "-7") = 1 :=
  ⟨limit_effective_amended.2.1 "abc" (by decide),
   limit_effective_amended.2.2.2.2.2 "200" 200 (by decide) (by decide),
   limit_effective_amended.2.2.2.2.1 "-7" (-7) (by decide) (by decide) (by decide)⟩

/-- C5: the effective page is the parsed integer with fallback 1 on parse
failure or a parsed value below 1, and the OFFSET parameter bound at the
end of the data query equals (effective page - 1) * effective limit. -/
theorem page_effective_and_offset :
    (currentPage none = 1)
    ∧ (∀ p, jsParseInt p = none → currentPage (some p) = 1)
    ∧ (∀ p n, jsParseInt p = some n → n < 1 → currentPage (some p) = 1)
    ∧ (∀ p n, jsParseInt p = some n → 1 ≤ n → currentPage (some p) = n)
    ∧ (∀ r : Req, truthy r.id = false →
        (buildDataSql r).2.getLast? =
          some (SqlParam.int ((currentPage r.page - 1) * currentLimit r.limit))) := by
  refine ⟨by decide, ?_, ?_, ?_, ?_⟩
  · intro p h
    simp [currentPage, jsOr, h]
  · intro p n h hlt
    by_cases hn : n = 0
    · simp [currentPage, jsOr, h, hn]
    · simp only [currentPage, jsOr, Option.getD_some, h, if_neg hn]
      omega
  · intro p n h hge
    have hn : n ≠ 0 := by omega
    simp only [currentPage, jsOr, Option.getD_some, h, if_neg hn]
    omega
  · intro r hid
    simp [buildDataSql, hid, offsetOf]

theorem page_offset_witness :
    currentPage (some "3") = 3
    ∧ (buildDataSql { page := some "3", limit := some "20" }).2.getLast?
        = some (SqlParam.int 40) := by
  constructor
  · exact page_effective_and_offset.2.2.2.1 "3" 3 (by decide) (by decide)
  · rw [page_effective_and_offset.2.2.2.2 { page := some "3", limit := some "20" }
      (by decide)]
    decide

/-- C6: for a non-id request whose count yields totalItems with
offset >= totalItems > 0, the handler skips the data query and responds 200
with empty items, the computed totalItems, totalPages = ceil(totalItems /
limit), the effective page and limit, and the raw filter/sort echoes. -/
theorem out_of_range_short_circuit {ρ : Type} (r : Req) (cv : Int) (rows : List ρ)
    (hid : truthy r.id = false) (h1 : offsetOf r ≥ cv) (h2 : cv > 0) :
    runHandler r cv rows =
      { countIssued := true, dataIssued := false,
        env := { items := [], totalItems := cv, page := currentPage r.page,
                 totalPages := jsCeilDiv cv (currentLimit r.limit),
                 limit := currentLimit r.limit,
                 filtersSearch := r.search, filtersQuality := r.quality,
                 filtersType := r.type,
                 sortingSort := r.sort.getD "lastUpdated",
                 sortingSortDir := r.sortDir.getD "desc" } } := by
  simp [runHandler, hid, h1, h2]

theorem out_of_range_short_circuit_witness :
    runHandler (ρ := Nat) { page := some "2", limit := some "10" } 5 [3] =
      { countIssued := true, dataIssued := false,
        env := { items := [], totalItems := 5, page := 2, totalPages := 1,
                 limit := 10, filtersSearch := none, filtersQuality := none,
                 filtersType := none, sortingSort := "lastUpdated",
                 sortingSortDir := "desc" } } := by
  rw [out_of_range_short_circuit { page := some "2", limit := some "10" } 5 [3]
    (by decide) (by decide) (by decide)]
  decide

/-- C7 counterexample: the sort key "toString" is none of the five mapped
keys, yet it does not resolve to last_updated_ts — the object-literal
lookup `mapping["toString"] || default` returns the truthy inherited
`Object.prototype.toString`, whose stringification is interpolated into
the ORDER BY text of the data query. -/
theorem sort_prototype_counterexample :
    mapSortColumn "toString" = "function toString() \x7b [native code] \x7d"
    ∧ mapSortColumn "toString" ≠ "last_updated_ts"
    ∧ (buildDataSql { sort := some "toString" }).1 =
        "SELECT * FROM movies WHERE 1=1 ORDER BY function toString() \x7b [native code] \x7d DESC , original_id DESC LIMIT $1 OFFSET $2" := by
  decide

/-- C7 (amended): for a non-id request the data query carries the ORDER BY
clause with the resolved column and direction plus the original_id
tiebreak and parameterized LIMIT/OFFSET; a sort key other than the five
mapped keys resolves to last_updated_ts exactly when it also names no
`Object.prototype` property, while inherited prototype names resolve to
the stringified inherited member; the direction is ASC exactly when
sortDir lower-cases to "asc"; NULLS LAST appears exactly for size_bytes;
and for an id request the ORDER BY is omitted and the query is capped by
LIMIT 1. -/
theorem order_by_and_sort_resolution (r : Req) :
    (truthy r.id = false →
      (buildDataSql r).1 =
        "SELECT * " ++ (buildFilter r).1 ++ " "
          ++ orderByClause (mapSortColumn (r.sort.getD "lastUpdated"))
              (sortDirection (r.sortDir.getD "desc"))
          ++ " LIMIT $" ++ toString (buildFilter r).2.2
          ++ " OFFSET $" ++ toString ((buildFilter r).2.2 + 1))
    ∧ (truthy r.id = true →
      (buildDataSql r).1 = "SELECT * " ++ (buildFilter r).1 ++ " LIMIT 1")
    ∧ (∀ k, k ≠ "id" → k ≠ "filename" → k ≠ "size" → k ≠ "quality" →
        k ≠ "lastUpdated" → objectProtoProps.lookup k = none →
        mapSortColumn k = "last_updated_ts")
    ∧ (∀ kv ∈ objectProtoProps, mapSortColumn kv.1 = kv.2)
    ∧ (∀ d, (sortDirection d = "ASC" ↔ jsToLower d = "asc")
        ∧ (sortDirection d ≠ "ASC" → sortDirection d = "DESC"))
    ∧ (∀ d, orderByClause "size_bytes" d
        = "ORDER BY size_bytes " ++ d ++ " NULLS LAST, original_id " ++ d)
    ∧ (∀ c d, c ≠ "size_bytes" →
        orderByClause c d = "ORDER BY " ++ c ++ " " ++ d ++ " , original_id " ++ d) := by
  refine ⟨?_, ?_, ?_, by decide, ?_, ?_, ?_⟩
  · intro h
    simp [buildDataSql, h]
  · intro h
    simp [buildDataSql, h]
  · intro k h1 h2 h3 h4 h5 hl
    simp [mapSortColumn, h1, h2, h3, h4, h5, hl]
  · intro d
    by_cases hc : jsToLower d = "asc"
    · constructor
      · simp [sortDirection, hc]
      · intro h
        simp [sortDirection, hc] at h
    · constructor
      · constructor
        · intro h
          simp [sortDirection, hc] at h
        · intro h
          exact absurd h hc
      · intro h
        simp [sortDirection, hc]
  · intro d
    simp [orderByClause, String.append_assoc]
  · intro c d hc
    simp [orderByClause, hc, String.append_assoc]

theorem order_by_witness :
    (buildDataSql { sort := some "size" }).1 =
      "SELECT * FROM movies WHERE 1=1 ORDER BY size_bytes DESC NULLS LAST, original_id DESC LIMIT $1 OFFSET $2"
    ∧ mapSortColumn "popularity" = "last_updated_ts" := by
  constructor
  · rw [(order_by_and_sort_resolution { sort := some "size" }).1 rfl]
    decide
  · exact (order_by_and_sort_resolution { sort := some "size" }).2.2.1 "popularity"
      (by decide) (by decide) (by decide) (by decide) (by decide) (by decide)

/-- C8: for an id request the count query is skipped (the outcome never
depends on the count value and countIssued is false) and the envelope
reports totalItems = 1 and totalPages = 1 unconditionally; with zero rows
returned the items are empty while the totals still read 1. -/
theorem id_lookup_totals {ρ : Type} (r : Req) (hid : truthy r.id = true) :
    (∀ cv cv' : Int, ∀ rows : List ρ, runHandler r cv rows = runHandler r cv' rows)
    ∧ (∀ (cv : Int) (rows : List ρ),
        (runHandler r cv rows).countIssued = false
        ∧ (runHandler r cv rows).dataIssued = true
        ∧ (runHandler r cv rows).env.totalItems = 1
        ∧ (runHandler r cv rows).env.totalPages = 1)
    ∧ (∀ cv : Int, (runHandler r cv ([] : List ρ)).env.items = []) := by
  refine ⟨?_, ?_, ?_⟩
  · intro cv cv' rows
    simp [runHandler, hid]
  · intro cv rows
    simp [runHandler, hid]
  · intro cv
    simp [runHandler, hid]

theorem id_lookup_totals_witness :
    (runHandler { id := some "5" } 99 ([] : List Nat)).env.totalItems = 1
    ∧ (runHandler { id := some "5" } 99 ([] : List Nat)).env.items = [] :=
  ⟨((id_lookup_totals { id := some "5" } (by decide)).2.1 99 []).2.2.1,
   (id_lookup_totals { id := some "5" } (by decide)).2.2 99⟩

theorem searchClause_shape (s : String) :
    (searchClause s 1).1 = (searchFragOfShape (searchShapeOfVal s) 1).1
    ∧ (searchClause s 1).2.2 = (searchFragOfShape (searchShapeOfVal s) 1).2
    ∧ (searchClause s 1).2.2 = (searchClause s 1).2.1.length + 1 := by
  by_cases hdual : ((!(jsTrim s == "") && (jsTrim s).data.all Char.isDigit)
      && decide ((jsTrim s).length < 10)) = true
  · simp [searchClause, searchShapeOfVal, searchFragOfShape, hdual]
  · by_cases hempty : normalizeSearchTextForComparison (jsTrim s) = ""
    · simp [searchClause, searchShapeOfVal, searchFragOfShape, hdual, hempty]
    · simp [searchClause, searchShapeOfVal, searchFragOfShape, hdual, hempty]

theorem buildFilter_shape (r : Req) :
    (buildFilter r).1 = (filterTextOfShape (shapeOf r)).1
    ∧ (buildFilter r).2.2 = (filterTextOfShape (shapeOf r)).2
    ∧ (buildFilter r).2.2 = (buildFilter r).2.1.length + 1 := by
  obtain ⟨e1, e2, e3⟩ := searchClause_shape (r.search.getD "")
  have e4 : (searchFragOfShape (searchShapeOfVal (r.search.getD "")) 1).2
      = (searchClause (r.search.getD "") 1).2.1.length + 1 := e2.symm.trans e3
  by_cases hid : truthy r.id = true
  · simp [buildFilter, filterTextOfShape, shapeOf, hid]
  · replace hid : truthy r.id = false := by simpa using hid
    by_cases hse : truthy r.search = true
    · by_cases hm : r.type = some "movies"
      · by_cases hq : truthy r.quality = true <;>
          simp [buildFilter, filterTextOfShape, shapeOf,
            hid, hse, hq, hm, e1, e2, e3, e4]
      · by_cases hs2 : r.type = some "series"
        · by_cases hq : truthy r.quality = true <;>
            simp [buildFilter, filterTextOfShape, shapeOf,
              hid, hse, hq, hm, hs2, e1, e2, e3, e4]
        · by_cases hq : truthy r.quality = true <;>
            simp [buildFilter, filterTextOfShape, shapeOf,
              hid, hse, hq, hm, hs2, e1, e2, e3, e4]
    · by_cases hm : r.type = some "movies"
      · by_cases hq : truthy r.quality = true <;>
          simp [buildFilter, filterTextOfShape, shapeOf, searchFragOfShape,
            hid, hse, hq, hm]
      · by_cases hs2 : r.type = some "series"
        · by_cases hq : truthy r.quality = true <;>
            simp [buildFilter, filterTextOfShape, shapeOf, searchFragOfShape,
              hid, hse, hq, hm, hs2]
        · by_cases hq : truthy r.quality = true <;>
            simp [buildFilter, filterTextOfShape, shapeOf, searchFragOfShape,
              hid, hse, hq, hm, hs2]

theorem mem_snd_of_lookup {α β : Type} [BEq α] {l : List (α × β)} {k : α} {v : β}
    (h : l.lookup k = some v) : v ∈ l.map Prod.snd := by
  induction l with
  | nil => simp [List.lookup] at h
  | cons p t ih =>
      obtain ⟨pk, pv⟩ := p
      simp only [List.lookup] at h
      split at h
      · injection h with h
        subst h
        simp
      · simp only [List.map_cons, List.mem_cons]
        exact Or.inr (ih h)

/-- C9: the text of the id, search, quality and type predicates (the whole
filter, shared by the count and data queries) is a function of the
request's branch shape alone, so no user-supplied parameter value is ever
concatenated into a predicate; the parameter list carries each
placeholder's bound value, its length staying one below the next
placeholder index, and the LIMIT/OFFSET clause binds its two placeholders
to the effective limit and offset appended to that list. The remaining
request-derived text — the resolved sort column and direction — ranges
over a fixed finite set (the five whitelisted columns and the twelve
stringified Object.prototype members) and over ASC/DESC, so it too never
carries a literal parameter value. -/
theorem sql_text_is_parameterized (r : Req) :
    (buildDataSql r).1 = dataTextOfShape (shapeOf r)
    ∧ (buildCountSql r).1 = "SELECT COUNT(*) " ++ (filterTextOfShape (shapeOf r)).1
    ∧ (buildFilter r).2.2 = (buildFilter r).2.1.length + 1
    ∧ (buildDataSql r).2 = (buildFilter r).2.1
        ++ (if truthy r.id = true then []
            else [SqlParam.int (currentLimit r.limit), SqlParam.int (offsetOf r)])
    ∧ (shapeOf r).sortColumn ∈
        ((["original_id", "lower(filename)", "size_bytes", "quality",
          "last_updated_ts"] : List String) ++ objectProtoProps.map Prod.snd)
    ∧ (shapeOf r).dir ∈ (["ASC", "DESC"] : List String) := by
  obtain ⟨f1, f2, f3⟩ := buildFilter_shape r
  refine ⟨?_, ?_, f3, ?_, ?_, ?_⟩
  · by_cases hid : truthy r.id = true <;>
      simp [buildDataSql, dataTextOfShape, shapeOf, hid, f1, f2]
  · simp [buildCountSql, f1]
  · by_cases hid : truthy r.id = true <;> simp [buildDataSql, hid]
  · simp only [shapeOf]
    unfold mapSortColumn
    split_ifs <;> try decide
    rcases hl : objectProtoProps.lookup (r.sort.getD "lastUpdated") with _ | v
    · decide
    · exact List.mem_append_right _ (mem_snd_of_lookup hl)
  · simp only [shapeOf]
    unfold sortDirection
    split_ifs <;> simp

/-- C10: an empty-string id, search, or quality behaves exactly like an
absent parameter: an empty id is falsy (the request is not an id lookup and
the other filters still apply, as the built queries coincide), and an
empty-string search or quality adds no predicate. -/
theorem empty_string_params_like_absent (r : Req) :
    truthy (some "") = false
    ∧ buildDataSql { r with id := some "" } = buildDataSql { r with id := none }
    ∧ buildCountSql { r with id := some "" } = buildCountSql { r with id := none }
    ∧ buildDataSql { r with search := some "" } = buildDataSql { r with search := none }
    ∧ buildDataSql { r with quality := some "" } = buildDataSql { r with quality := none }
    ∧ (∀ (cv : Int) (rows : List Nat),
        runHandler { r with id := some "" } cv rows
          = runHandler { r with id := none } cv rows) := by
  refine ⟨by decide, ?_, ?_, ?_, ?_, ?_⟩
  · simp [buildDataSql, buildFilter, truthy, offsetOf]
  · simp [buildCountSql, buildFilter, truthy]
  · simp [buildDataSql, buildFilter, truthy, offsetOf]
  · simp [buildDataSql, buildFilter, truthy, offsetOf]
  · intro cv rows
    simp [runHandler, truthy, offsetOf]

end MoviesApi
